import Mathlib

/-!
Verification development for the KSSM Inventory Server
(src/database.py, src/server.py, src/models.py).

The SQLite-backed store is embedded as an explicit state value `DB` holding
the rows of the four tables the claims touch (items, checkout_history,
users, item_requests) together with the autoincrement counters.  Every
method of `InventoryDatabase` in src/database.py that the claims depend on
becomes a pure function on `DB`, and every FastAPI handler in src/server.py
becomes a function returning an `Except Err` result paired with the new
store state.  Timestamps (ISO-8601 strings produced by
`datetime.now().isoformat()`) are modelled as natural numbers, which
compare in the same (chronological) order as the strings do.
-/

namespace KSSM

/-- Row of the `items` table (src/database.py, `init_database`).
`is_checked_out` is an INTEGER 0/1 column, modelled as `Bool`;
nullable TEXT columns are `Option String`. -/
structure Item where
  id : Nat
  name : String
  description : Option String := none
  category : Option String := none
  barcode : Option String := none
  serial_number : Option String := none
  storage_location : Option String := none
  is_checked_out : Bool := false
  checked_out_by : Option String := none
  checked_out_date : Option Nat := none
  image_url : Option String := none
  notes : Option String := none
  created_date : Nat := 0
  last_modified_date : Nat := 0
deriving Repr, DecidableEq

/-- Row of the `checkout_history` table. `action` is the TEXT column that
receives the literal `checkout` or `checkin`. -/
structure HistoryEntry where
  id : Nat
  item_id : Nat
  action : String
  person_name : String
  timestamp : Nat
  notes : String := ""
deriving Repr, DecidableEq

/-- Row of the `users` table. The password hash is opaque to the claims. -/
structure User where
  id : Nat
  username : String
  password_hash : String
  full_name : String
  role : String
  is_active : Bool := true
  created_date : Nat := 0
  last_login : Option Nat := none
deriving Repr, DecidableEq

/-- Row of the `item_requests` table. `status` holds the TEXT values
`pending`, `approved` or `denied`; `request_type` holds `add_item`
or `remove_item`. -/
structure ItemRequest where
  id : Nat
  requester_id : Nat
  request_type : String
  item_name : String
  description : String
  item_id : Option Nat := none
  status : String := "pending"
  denial_reason : Option String := none
  created_date : Nat := 0
  reviewed_date : Option Nat := none
  reviewed_by_id : Option Nat := none
deriving Repr, DecidableEq

/-- The whole store: table contents plus AUTOINCREMENT counters. -/
structure DB where
  items : List Item := []
  checkout_history : List HistoryEntry := []
  users : List User := []
  item_requests : List ItemRequest := []
  next_item_id : Nat := 1
  next_history_id : Nat := 1
  next_user_id : Nat := 1
  next_request_id : Nat := 1
deriving Repr, DecidableEq

/-! Pydantic request models (src/models.py). -/

/-- `ItemCreate` (src/models.py): `name` is required, the rest optional. -/
structure ItemCreate where
  name : String
  description : Option String := none
  category : Option String := none
  barcode : Option String := none
  serial_number : Option String := none
  storage_location : Option String := none
  image_url : Option String := none
  notes : Option String := none
deriving Repr, DecidableEq

/-- `ItemUpdate` (src/models.py): every field optional; a `none` field was
not supplied by the client. -/
structure ItemUpdate where
  name : Option String := none
  description : Option String := none
  category : Option String := none
  barcode : Option String := none
  serial_number : Option String := none
  storage_location : Option String := none
  image_url : Option String := none
  notes : Option String := none
deriving Repr, DecidableEq

/-- `RequestType` (src/models.py). -/
inductive RequestType where
  | add_item
  | remove_item
deriving Repr, DecidableEq

/-- The string stored for each `RequestType` member (its `.value`). -/
def RequestType.value : RequestType → String
  | .add_item => "add_item"
  | .remove_item => "remove_item"

/-- `RequestStatus` (src/models.py). -/
inductive RequestStatus where
  | pending
  | approved
  | denied
deriving Repr, DecidableEq

/-- The string stored for each `RequestStatus` member (its `.value`). -/
def RequestStatus.value : RequestStatus → String
  | .pending => "pending"
  | .approved => "approved"
  | .denied => "denied"

/-- `UserRole` (src/models.py). -/
inductive UserRole where
  | member
  | admin
  | quartermaster
deriving Repr, DecidableEq

/-- The string value of each `UserRole` member. -/
def UserRole.value : UserRole → String
  | .member => "member"
  | .admin => "admin"
  | .quartermaster => "quartermaster"

/-- `ItemRequestCreate` (src/models.py). -/
structure ItemRequestCreate where
  request_type : RequestType
  item_name : String
  description : String
  item_id : Option Nat := none
deriving Repr, DecidableEq

/-- `ItemRequestUpdate` (src/models.py): the review decision. -/
structure ItemRequestUpdate where
  status : RequestStatus
  denial_reason : Option String := none
deriving Repr, DecidableEq

/-- `UserCreate` (src/models.py): NOTE the login field is called `email`
in the model even though src/server.py and src/database.py work with
`username`. -/
structure UserCreate where
  email : String
  password : String
  full_name : String
  role : UserRole
deriving Repr, DecidableEq

/-- Python attribute lookup on a `UserCreate` pydantic object: only the
four declared fields exist; any other attribute access raises
`AttributeError`, modelled by `none`. -/
def UserCreate.getattr (u : UserCreate) (attr : String) : Option String :=
  if attr = "email" then some u.email
  else if attr = "password" then some u.password
  else if attr = "full_name" then some u.full_name
  else if attr = "role" then some u.role.value
  else none

/-! The `InventoryDatabase` methods (src/database.py). -/

/-- `get_item` (src/database.py:200): `SELECT * FROM items WHERE id = ?`,
returning the first matching row or `None`. -/
def DB.get_item (db : DB) (item_id : Nat) : Option Item :=
  db.items.find? (fun it => it.id == item_id)

/-- The `items.barcode TEXT UNIQUE` constraint check for the INSERT of
`add_item` (src/database.py:36): the insert raises when a non-NULL
barcode is already carried by an existing row; NULL barcodes never
collide. -/
def DB.insert_barcode_conflict (db : DB) (d : ItemCreate) : Bool :=
  match d.barcode with
  | some b => db.items.any (fun s => s.barcode == some b)
  | none => false

/-- `add_item` (src/database.py:154): INSERT of the supplied fields; the
checkout columns take their defaults (0 / NULL) and both timestamps are
set to `now`. When the barcode violates the UNIQUE constraint the INSERT
raises an IntegrityError (modelled as the error string) before anything
is written; otherwise the fresh rowid and the new store are returned. -/
def DB.add_item (db : DB) (d : ItemCreate) (now : Nat) :
    Except String Nat × DB :=
  if db.insert_barcode_conflict d then
    (.error "UNIQUE constraint failed: items.barcode", db)
  else
    let item : Item :=
      { id := db.next_item_id
        name := d.name
        description := d.description
        category := d.category
        barcode := d.barcode
        serial_number := d.serial_number
        storage_location := d.storage_location
        image_url := d.image_url
        notes := d.notes
        created_date := now
        last_modified_date := now }
    (.ok db.next_item_id,
     { db with items := db.items ++ [item],
               next_item_id := db.next_item_id + 1 })

/-- The column values written by the UPDATE statement of `update_item`
(src/database.py:214): the eight item fields it sets, as passed in the
`item_data` dict by the handler after merging. `name` is NOT NULL. -/
structure UpdateValues where
  name : String
  description : Option String := none
  category : Option String := none
  barcode : Option String := none
  serial_number : Option String := none
  storage_location : Option String := none
  image_url : Option String := none
  notes : Option String := none
deriving Repr, DecidableEq

/-- The `items.barcode TEXT UNIQUE` constraint check for the UPDATE of
`update_item` (src/database.py:36): the write fails when a row is matched
and the written barcode is non-NULL and already carried by a different
row; writing NULL, or re-writing the row's own barcode, never
collides. -/
def DB.update_barcode_conflict (db : DB) (item_id : Nat)
    (v : UpdateValues) : Bool :=
  db.items.any (fun it => it.id == item_id) &&
    match v.barcode with
    | some b => db.items.any (fun s => !(s.id == item_id) && s.barcode == some b)
    | none => false

/-- `update_item` (src/database.py:214): UPDATE of the eight fields plus
`last_modified_date` on every row with the given id; success is
`rowcount > 0`. The checkout columns are not touched. When the written
barcode violates the UNIQUE constraint the UPDATE raises an
IntegrityError (modelled as the error string) and no row changes. -/
def DB.update_item (db : DB) (item_id : Nat) (v : UpdateValues) (now : Nat) :
    Except String Bool × DB :=
  if db.update_barcode_conflict item_id v then
    (.error "UNIQUE constraint failed: items.barcode", db)
  else
    (.ok (db.items.any (fun it => it.id == item_id)),
     { db with items := db.items.map (fun it =>
         if it.id == item_id then
           { it with
             name := v.name
             description := v.description
             category := v.category
             barcode := v.barcode
             serial_number := v.serial_number
             storage_location := v.storage_location
             image_url := v.image_url
             notes := v.notes
             last_modified_date := now }
         else it) })

/-- `delete_item` (src/database.py:252): first `DELETE FROM
checkout_history WHERE item_id = ?`, then `DELETE FROM items WHERE id = ?`;
success is the rowcount of the second delete, and the commit covers both,
so the history rows are removed even when the item does not exist. -/
def DB.delete_item (db : DB) (item_id : Nat) : Bool × DB :=
  (db.items.any (fun it => it.id == item_id),
   { db with
     checkout_history := db.checkout_history.filter (fun h => !(h.item_id == item_id))
     items := db.items.filter (fun it => !(it.id == item_id)) })

/-- `checkout_item` (src/database.py:269): conditional UPDATE gated on
`is_checked_out = 0`; if no row matched, return `False` with nothing
committed; otherwise set the checkout columns and append one
`checkout` history row in the same commit. -/
def DB.checkout_item (db : DB) (item_id : Nat) (person_name notes : String)
    (now : Nat) : Bool × DB :=
  if db.items.any (fun it => it.id == item_id && !it.is_checked_out) then
    let entry : HistoryEntry :=
      { id := db.next_history_id
        item_id := item_id
        action := "checkout"
        person_name := person_name
        timestamp := now
        notes := notes }
    (true,
     { db with
       items := db.items.map (fun it =>
         if it.id == item_id && !it.is_checked_out then
           { it with
             is_checked_out := true
             checked_out_by := some person_name
             checked_out_date := some now
             last_modified_date := now }
         else it)
       checkout_history := db.checkout_history ++ [entry]
       next_history_id := db.next_history_id + 1 })
  else (false, db)

/-- `checkin_item` (src/database.py:301): conditional UPDATE gated on
`is_checked_out = 1`; on success clear the checkout columns and append one
`checkin` history row in the same commit. -/
def DB.checkin_item (db : DB) (item_id : Nat) (person_name notes : String)
    (now : Nat) : Bool × DB :=
  if db.items.any (fun it => it.id == item_id && it.is_checked_out) then
    let entry : HistoryEntry :=
      { id := db.next_history_id
        item_id := item_id
        action := "checkin"
        person_name := person_name
        timestamp := now
        notes := notes }
    (true,
     { db with
       items := db.items.map (fun it =>
         if it.id == item_id && it.is_checked_out then
           { it with
             is_checked_out := false
             checked_out_by := none
             checked_out_date := none
             last_modified_date := now }
         else it)
       checkout_history := db.checkout_history ++ [entry]
       next_history_id := db.next_history_id + 1 })
  else (false, db)

/-- `ORDER BY timestamp DESC`: an entry sorts before another when its
timestamp is at least as large. -/
def histDesc (a b : HistoryEntry) : Prop := b.timestamp ≤ a.timestamp

instance : DecidableRel histDesc := fun a b =>
  inferInstanceAs (Decidable (b.timestamp ≤ a.timestamp))

instance : IsTotal HistoryEntry histDesc :=
  ⟨fun a b => Nat.le_total b.timestamp a.timestamp⟩

instance : IsTrans HistoryEntry histDesc :=
  ⟨fun _ _ _ hab hbc => Nat.le_trans hbc hab⟩

/-- `get_item_history` (src/database.py:333): the rows of
`checkout_history` with this `item_id`, ordered by timestamp descending. -/
def DB.get_item_history (db : DB) (item_id : Nat) : List HistoryEntry :=
  List.insertionSort histDesc
    (db.checkout_history.filter (fun h => h.item_id == item_id))

/-- `get_user_by_username` (src/database.py:396). -/
def DB.get_user_by_username (db : DB) (username : String) : Option User :=
  db.users.find? (fun u => u.username == username)

/-- `get_user_by_id` (src/database.py:410). -/
def DB.get_user_by_id (db : DB) (user_id : Nat) : Option User :=
  db.users.find? (fun u => u.id == user_id)

/-- Stand-in for `pwd_context.hash(_prepare_password p)`
(src/database.py:10): credential hashing is an external collaborator;
only its opacity matters here. -/
def hashPassword (p : String) : String := "bcrypt-sha256:" ++ p

/-- `create_user` (src/database.py:377): INSERT of a new user row with
`is_active` defaulting to 1. -/
def DB.create_user (db : DB) (username password full_name role : String)
    (now : Nat) : Nat × DB :=
  let u : User :=
    { id := db.next_user_id
      username := username
      password_hash := hashPassword password
      full_name := full_name
      role := role
      created_date := now }
  (db.next_user_id,
   { db with users := db.users ++ [u], next_user_id := db.next_user_id + 1 })

/-- `create_item_request` (src/database.py:517): INSERT with `status`
taking its DEFAULT `pending` and the review columns NULL. -/
def DB.create_item_request (db : DB) (requester_id : Nat)
    (request_type item_name description : String) (item_id : Option Nat)
    (now : Nat) : Nat × DB :=
  let r : ItemRequest :=
    { id := db.next_request_id
      requester_id := requester_id
      request_type := request_type
      item_name := item_name
      description := description
      item_id := item_id
      status := "pending"
      created_date := now }
  (db.next_request_id,
   { db with item_requests := db.item_requests ++ [r],
             next_request_id := db.next_request_id + 1 })

/-- `get_request_by_id` (src/database.py:631); the display-name join
columns are irrelevant to the claims. -/
def DB.get_request_by_id (db : DB) (request_id : Nat) : Option ItemRequest :=
  db.item_requests.find? (fun r => r.id == request_id)

/-- `update_request_status` (src/database.py:612): UPDATE of status,
reviewer, review timestamp and denial reason on every row with the given
id; success is `rowcount > 0`. There is no status gate at this layer. -/
def DB.update_request_status (db : DB) (request_id : Nat) (status : String)
    (reviewed_by_id : Nat) (denial_reason : Option String) (now : Nat) :
    Bool × DB :=
  (db.item_requests.any (fun r => r.id == request_id),
   { db with item_requests := db.item_requests.map (fun r =>
       if r.id == request_id then
         { r with
           status := status
           reviewed_by_id := some reviewed_by_id
           reviewed_date := some now
           denial_reason := denial_reason }
       else r) })

/-! The FastAPI handlers (src/server.py). Each handler is a function from
the store state and the request data to an `Except Err` outcome paired
with the state after the handler ran (including any mutation committed
before a later failure). Authentication and role checks happen in
dependencies before the handler body and mutate nothing, so they are
outside these functions. -/

/-- The typed failures raised by the handlers (HTTPException payloads),
plus `attributeError` for an uncaught Python fault escaping a handler. -/
inductive Err where
  | notFound
  | alreadyCheckedOut (holder : Option String)
  | notCheckedOut
  | failedCheckout
  | failedCheckin
  | failedUpdate
  | integrityError (msg : String)
  | failedRequestUpdate
  | itemIdRequired
  | alreadyReviewed
  | missingReason
  | usernameTaken
  | attributeError (msg : String)
deriving Repr, DecidableEq

namespace Server

/-- Handler `create_item` (src/server.py:133): insert, then re-read the
new row and return it; an IntegrityError raised by the insert is caught
by the handler's except clause and returned as a 400 with its message,
the store unchanged. -/
def create_item (db : DB) (item : ItemCreate) (now : Nat) :
    Except Err Item × DB :=
  let res := db.add_item item now
  match res.1 with
  | .error e => (.error (.integrityError e), res.2)
  | .ok item_id =>
    match res.2.get_item item_id with
    | some it => (.ok it, res.2)
    | none => (.error .notFound, res.2)

/-- Merge step of handler `update_item` (src/server.py:159): the fields
the client supplied win; for the rest the existing value of the record is
kept (src/server.py:166 copies every missing key from the existing row,
and `DB.update_item` reads exactly these eight keys). -/
def mergeValues (existing : Item) (item : ItemUpdate) : UpdateValues :=
  { name := item.name.getD existing.name
    description := match item.description with
      | some v => some v
      | none => existing.description
    category := match item.category with
      | some v => some v
      | none => existing.category
    barcode := match item.barcode with
      | some v => some v
      | none => existing.barcode
    serial_number := match item.serial_number with
      | some v => some v
      | none => existing.serial_number
    storage_location := match item.storage_location with
      | some v => some v
      | none => existing.storage_location
    image_url := match item.image_url with
      | some v => some v
      | none => existing.image_url
    notes := match item.notes with
      | some v => some v
      | none => existing.notes }

/-- Handler `update_item` (src/server.py:146): 404 when the item does not
exist; when no field was provided the existing row is returned untouched;
otherwise the merged values are written and the row re-read. An
IntegrityError raised by the UPDATE (duplicate barcode) is caught by the
handler's except clause and returned as a 400 with its message, the
store unchanged. -/
def update_item (db : DB) (item_id : Nat) (item : ItemUpdate) (now : Nat) :
    Except Err Item × DB :=
  match db.get_item item_id with
  | none => (.error .notFound, db)
  | some existing =>
    if item = ({} : ItemUpdate) then (.ok existing, db)
    else
      let res := db.update_item item_id (mergeValues existing item) now
      match res.1 with
      | .error e => (.error (.integrityError e), res.2)
      | .ok success =>
        if success then
          match res.2.get_item item_id with
          | some u => (.ok u, res.2)
          | none => (.error .failedUpdate, res.2)
        else (.error .failedUpdate, res.2)

/-- Handler `delete_item` (src/server.py:180): 404 when
`InventoryDatabase.delete_item` reported no deleted item row; the history
cascade inside it has run either way. -/
def delete_item (db : DB) (item_id : Nat) : Except Err Unit × DB :=
  let res := db.delete_item item_id
  if res.1 then (.ok (), res.2) else (.error .notFound, res.2)

/-- Handler `checkout_item` (src/server.py:192): 404 when missing, 400
carrying the current holder when already checked out, otherwise the
conditional checkout. -/
def checkout_item (db : DB) (item_id : Nat) (person_name notes : String)
    (now : Nat) : Except Err Unit × DB :=
  match db.get_item item_id with
  | none => (.error .notFound, db)
  | some item =>
    if item.is_checked_out then
      (.error (.alreadyCheckedOut item.checked_out_by), db)
    else
      let res := db.checkout_item item_id person_name notes now
      if res.1 then (.ok (), res.2) else (.error .failedCheckout, res.2)

/-- Handler `checkin_item` (src/server.py:220): 404 when missing, 400 when
not checked out; the supplied person name is not compared with the
holder recorded at checkout. -/
def checkin_item (db : DB) (item_id : Nat) (person_name notes : String)
    (now : Nat) : Except Err Unit × DB :=
  match db.get_item item_id with
  | none => (.error .notFound, db)
  | some item =>
    if item.is_checked_out then
      let res := db.checkin_item item_id person_name notes now
      if res.1 then (.ok (), res.2) else (.error .failedCheckin, res.2)
    else (.error .notCheckedOut, db)

/-- Handler `get_item_history` (src/server.py:245): 404 when the item does
not exist, otherwise the ordered history. Reads mutate nothing. -/
def get_item_history (db : DB) (item_id : Nat) :
    Except Err (List HistoryEntry) × DB :=
  match db.get_item item_id with
  | none => (.error .notFound, db)
  | some _ => (.ok (db.get_item_history item_id), db)

/-- Handler `create_user` (src/server.py:295): the body reads
`user.username`, but `UserCreate` (src/models.py:68) declares the login
field as `email`; the attribute lookup is modelled by
`UserCreate.getattr`, and its failure raises an uncaught
`AttributeError` before the duplicate check or the insert can run. -/
def create_user (db : DB) (user : UserCreate) (now : Nat) :
    Except Err User × DB :=
  match user.getattr "username" with
  | none =>
    (.error (.attributeError "UserCreate object has no attribute username"), db)
  | some username =>
    match db.get_user_by_username username with
    | some _ => (.error .usernameTaken, db)
    | none =>
      let res := db.create_user username user.password user.full_name
        user.role.value now
      match res.2.get_user_by_id res.1 with
      | some u => (.ok u, res.2)
      | none => (.error .notFound, res.2)

/-- Handler `create_request` (src/server.py:415): for a remove request a
falsy `item_id` (absent or 0) is rejected as required, then a dangling
reference is a 404; the insert itself passes `request.item_id` through
unconditionally, also for add requests. -/
def create_request (db : DB) (requester_id : Nat) (request : ItemRequestCreate)
    (now : Nat) : Except Err ItemRequest × DB :=
  if request.request_type = .remove_item ∧ request.item_id.getD 0 = 0 then
    (.error .itemIdRequired, db)
  else if request.request_type = .remove_item ∧
      (db.get_item (request.item_id.getD 0)).isNone then
    (.error .notFound, db)
  else
    let res := db.create_item_request requester_id request.request_type.value
      request.item_name request.description request.item_id now
    match res.2.get_request_by_id res.1 with
    | some r => (.ok r, res.2)
    | none => (.error .notFound, res.2)

/-- The inventory side effects of a review (src/server.py:504): for an
approved add request create the item from the request name and
description; for an approved remove request delete the target when its
stored id is truthy; otherwise no inventory change. -/
def review_side_effects (db : DB) (request : ItemRequest)
    (decision : RequestStatus) (now : Nat) : DB :=
  if decision = .approved ∧ request.request_type = "add_item" then
    (db.add_item
      { name := request.item_name
        description := some request.description } now).2
  else if decision = .approved ∧ request.request_type = "remove_item" then
    if request.item_id.getD 0 ≠ 0 then
      (db.delete_item (request.item_id.getD 0)).2
    else db
  else db

/-- Handler `update_request_status` (src/server.py:472): 404 when the
request is missing; 400 `alreadyReviewed` when its status is not
`pending`; 400 `missingReason` when denying with a falsy reason; then the
status row update, then the approval side effects, then the row is
re-read and returned. -/
def update_request_status (db : DB) (request_id : Nat)
    (status_update : ItemRequestUpdate) (reviewer_id : Nat) (now : Nat) :
    Except Err ItemRequest × DB :=
  match db.get_request_by_id request_id with
  | none => (.error .notFound, db)
  | some request =>
    if request.status ≠ "pending" then (.error .alreadyReviewed, db)
    else if status_update.status = .denied ∧
        (status_update.denial_reason = none ∨
         status_update.denial_reason = some "") then
      (.error .missingReason, db)
    else
      let res := db.update_request_status request_id
        status_update.status.value reviewer_id status_update.denial_reason now
      if res.1 then
        let db2 := review_side_effects res.2 request status_update.status now
        match db2.get_request_by_id request_id with
        | some r2 => (.ok r2, db2)
        | none => (.error .failedRequestUpdate, db2)
      else (.error .failedRequestUpdate, res.2)

end Server

/-- The operations of the system named by the invariant claims, acting on
the store through the handlers above. -/
inductive Op where
  | createItem (d : ItemCreate) (now : Nat)
  | updateItem (item_id : Nat) (u : ItemUpdate) (now : Nat)
  | deleteItem (item_id : Nat)
  | checkoutOp (item_id : Nat) (person_name notes : String) (now : Nat)
  | checkinOp (item_id : Nat) (person_name notes : String) (now : Nat)
  | submitRequest (requester_id : Nat) (r : ItemRequestCreate) (now : Nat)
  | reviewRequest (request_id : Nat) (u : ItemRequestUpdate)
      (reviewer_id : Nat) (now : Nat)

/-- The store state after running one operation through its handler. -/
def applyOp (db : DB) : Op → DB
  | .createItem d now => (Server.create_item db d now).2
  | .updateItem i u now => (Server.update_item db i u now).2
  | .deleteItem i => (Server.delete_item db i).2
  | .checkoutOp i p n now => (Server.checkout_item db i p n now).2
  | .checkinOp i p n now => (Server.checkin_item db i p n now).2
  | .submitRequest rq r now => (Server.create_request db rq r now).2
  | .reviewRequest rid u rev now =>
      (Server.update_request_status db rid u rev now).2

/-! Helper lemmas about the store operations. -/

/-- A row returned by a point lookup is in the table and matches the key. -/
theorem get_item_spec {db : DB} {i : Nat} {it : Item}
    (h : db.get_item i = some it) : it ∈ db.items ∧ it.id = i := by
  refine ⟨List.mem_of_find?_eq_some h, ?_⟩
  have := List.find?_some h
  simpa using this

/-- A failed point lookup means no row matches the key. -/
theorem get_item_none {db : DB} {i : Nat} (h : db.get_item i = none) :
    ∀ it ∈ db.items, ¬ it.id = i := by
  intro it hm
  have := List.find?_eq_none.mp h it hm
  simpa using this

/-- An existence scan succeeds when a point lookup did. -/
theorem any_of_get_item {db : DB} {i : Nat} {it : Item}
    (h : db.get_item i = some it) :
    db.items.any (fun x => x.id == i) = true := by
  rcases get_item_spec h with ⟨hm, hid⟩
  exact List.any_eq_true.mpr ⟨it, hm, by simpa using hid⟩

/-- The conditional-checkout guard scan succeeds when the looked-up row is
available. -/
theorem any_available_of_get_item {db : DB} {i : Nat} {it : Item}
    (h : db.get_item i = some it) (hav : it.is_checked_out = false) :
    db.items.any (fun x => x.id == i && !x.is_checked_out) = true := by
  rcases get_item_spec h with ⟨hm, hid⟩
  exact List.any_eq_true.mpr ⟨it, hm, by simp [hid, hav]⟩

/-- The conditional-checkin guard scan succeeds when the looked-up row is
checked out. -/
theorem any_out_of_get_item {db : DB} {i : Nat} {it : Item}
    (h : db.get_item i = some it) (hout : it.is_checked_out = true) :
    db.items.any (fun x => x.id == i && x.is_checked_out) = true := by
  rcases get_item_spec h with ⟨hm, hid⟩
  exact List.any_eq_true.mpr ⟨it, hm, by simp [hid, hout]⟩

/-- Point lookup commutes with a per-row map that does not change ids:
the found row is the image of the originally found row. -/
theorem find?_map_id_preserving {l : List Item} {f : Item → Item}
    (hid : ∀ a, (f a).id = a.id) (i : Nat) :
    (l.map f).find? (fun x => x.id == i) =
      (l.find? (fun x => x.id == i)).map f := by
  rw [List.find?_map]
  have hp : ((fun x : Item => x.id == i) ∘ f) = (fun x : Item => x.id == i) :=
    funext fun a => by simp [Function.comp, hid a]
  rw [hp]

/-- Same commutation for request tables. -/
theorem find?_map_req_id_preserving {l : List ItemRequest}
    {f : ItemRequest → ItemRequest} (hid : ∀ a, (f a).id = a.id) (i : Nat) :
    (l.map f).find? (fun x => x.id == i) =
      (l.find? (fun x => x.id == i)).map f := by
  rw [List.find?_map]
  have hp : ((fun x : ItemRequest => x.id == i) ∘ f) =
      (fun x : ItemRequest => x.id == i) :=
    funext fun a => by simp [Function.comp, hid a]
  rw [hp]

/-! Claim theorems. -/

/-- C10: when no item row has the requested id, the delete handler reports
NotFound and the items table is untouched, but the checkout_history rows
with that item id have nevertheless been deleted and committed, because
the history cascade runs before the existence of the item is checked. -/
theorem delete_missing_item_still_deletes_history (db : DB) (i : Nat)
    (h : db.get_item i = none) :
    Server.delete_item db i =
      (.error .notFound,
       { db with checkout_history :=
           db.checkout_history.filter (fun e => !(e.item_id == i)) }) := by
  have hnone : ∀ it ∈ db.items, ¬ it.id = i := get_item_none h
  have hany : db.items.any (fun x => x.id == i) = false := by
    rw [Bool.eq_false_iff]
    intro hc
    rcases List.any_eq_true.mp hc with ⟨a, ha, hpa⟩
    exact hnone a ha (by simpa using hpa)
  have hfilter : db.items.filter (fun it => !(it.id == i)) = db.items :=
    List.filter_eq_self.mpr (fun a ha => by simpa using hnone a ha)
  simp [Server.delete_item, DB.delete_item, hany, hfilter]

/-- Witness for the C10 theorem at a concrete store: no item row, one
stale history row for item 2, which the failing delete still removes. -/
theorem delete_missing_item_still_deletes_history_witness :
    Server.delete_item
        { checkout_history :=
            [{ id := 1, item_id := 2, action := "checkout",
               person_name := "P", timestamp := 1 }] } 2 =
      (.error .notFound, ({} : DB)) := by
  have := delete_missing_item_still_deletes_history
    { checkout_history :=
        [{ id := 1, item_id := 2, action := "checkout",
           person_name := "P", timestamp := 1 }] } 2 (by decide)
  simpa using this

/-- C9: the create-user handler reads `user.username`, an attribute the
`UserCreate` request model does not define (its login field is `email`),
so every call raises an uncaught AttributeError before the duplicate-login
check or the insert can run, and no typed DuplicateLogin result is ever
produced. -/
theorem create_user_always_raises_attribute_fault
    (db : DB) (user : UserCreate) (now : Nat) :
    Server.create_user db user now =
      (.error (.attributeError "UserCreate object has no attribute username"),
       db) := rfl

/-- C5: denying a pending request with an absent or empty denial reason is
rejected with the missing-reason failure, and the whole store (hence the
request, still pending, with reviewer and review timestamp unset) is
unchanged. -/
theorem deny_without_reason_rejected (db : DB) (request_id : Nat)
    (status_update : ItemRequestUpdate) (reviewer_id now : Nat)
    (r : ItemRequest) (hr : db.get_request_by_id request_id = some r)
    (hp : r.status = "pending")
    (hd : status_update.status = .denied)
    (hmiss : status_update.denial_reason = none ∨
      status_update.denial_reason = some "") :
    Server.update_request_status db request_id status_update reviewer_id now =
      (.error .missingReason, db) := by
  simp [Server.update_request_status, hr, hp, hd, hmiss]

/-- Witness for the C5 theorem: a concrete pending request denied with an
absent reason. -/
theorem deny_without_reason_rejected_witness :
    Server.update_request_status
        { item_requests :=
            [{ id := 1, requester_id := 4, request_type := "add_item",
               item_name := "X", description := "D", created_date := 3 }],
          next_request_id := 2 } 1
        { status := .denied } 9 7 =
      (.error .missingReason,
       { item_requests :=
           [{ id := 1, requester_id := 4, request_type := "add_item",
              item_name := "X", description := "D", created_date := 3 }],
         next_request_id := 2 }) :=
  deny_without_reason_rejected _ 1 _ 9 7
    { id := 1, requester_id := 4, request_type := "add_item",
      item_name := "X", description := "D", created_date := 3 }
    (by decide) rfl rfl (Or.inl rfl)

/-- Checkout handler, missing-item branch. -/
theorem checkout_item_notFound {db : DB} {i : Nat} (p n : String) (now : Nat)
    (h : db.get_item i = none) :
    Server.checkout_item db i p n now = (.error .notFound, db) := by
  simp [Server.checkout_item, h]

/-- Checkout handler, already-checked-out branch: the failure carries the
stored holder and the store is untouched. -/
theorem checkout_item_alreadyOut {db : DB} {i : Nat} {it : Item}
    (p n : String) (now : Nat) (h : db.get_item i = some it)
    (hout : it.is_checked_out = true) :
    Server.checkout_item db i p n now =
      (.error (.alreadyCheckedOut it.checked_out_by), db) := by
  simp [Server.checkout_item, h, hout]

/-- Checkout handler, success branch: the conditional update fires. -/
theorem checkout_item_success {db : DB} {i : Nat} {it : Item}
    (p n : String) (now : Nat) (h : db.get_item i = some it)
    (hav : it.is_checked_out = false) :
    Server.checkout_item db i p n now =
      (.ok (), (db.checkout_item i p n now).2) := by
  have hany := any_available_of_get_item h hav
  simp [Server.checkout_item, h, hav, DB.checkout_item, hany]

/-- Checkin handler, missing-item branch. -/
theorem checkin_item_notFound {db : DB} {i : Nat} (p n : String) (now : Nat)
    (h : db.get_item i = none) :
    Server.checkin_item db i p n now = (.error .notFound, db) := by
  simp [Server.checkin_item, h]

/-- Checkin handler, not-checked-out branch. -/
theorem checkin_item_notOut {db : DB} {i : Nat} {it : Item}
    (p n : String) (now : Nat) (h : db.get_item i = some it)
    (hav : it.is_checked_out = false) :
    Server.checkin_item db i p n now = (.error .notCheckedOut, db) := by
  simp [Server.checkin_item, h, hav]

/-- Checkin handler, success branch. -/
theorem checkin_item_success {db : DB} {i : Nat} {it : Item}
    (p n : String) (now : Nat) (h : db.get_item i = some it)
    (hout : it.is_checked_out = true) :
    Server.checkin_item db i p n now =
      (.ok (), (db.checkin_item i p n now).2) := by
  have hany := any_out_of_get_item h hout
  simp [Server.checkin_item, h, hout, DB.checkin_item, hany]

/-- C2: the custody-transition contract of the two handlers. Checkout
succeeds exactly when the item exists and is available, failing with the
already-checked-out error carrying the stored holder or with NotFound;
checkin succeeds exactly when the item exists and is checked out,
whatever person name is supplied, failing with the not-checked-out error
or NotFound; and every failure of either handler leaves the entire store
(items and history alike) unchanged. -/
theorem checkout_checkin_contract :
    (∀ (db : DB) (i : Nat) (p n : String) (now : Nat),
      (Server.checkout_item db i p n now).1 = .ok () ↔
        ∃ it, db.get_item i = some it ∧ it.is_checked_out = false) ∧
    (∀ (db : DB) (i : Nat) (p n : String) (now : Nat),
      db.get_item i = none →
        Server.checkout_item db i p n now = (.error .notFound, db)) ∧
    (∀ (db : DB) (i : Nat) (p n : String) (now : Nat) (it : Item),
      db.get_item i = some it → it.is_checked_out = true →
        Server.checkout_item db i p n now =
          (.error (.alreadyCheckedOut it.checked_out_by), db)) ∧
    (∀ (db : DB) (i : Nat) (p n : String) (now : Nat),
      (Server.checkin_item db i p n now).1 = .ok () ↔
        ∃ it, db.get_item i = some it ∧ it.is_checked_out = true) ∧
    (∀ (db : DB) (i : Nat) (p n : String) (now : Nat),
      db.get_item i = none →
        Server.checkin_item db i p n now = (.error .notFound, db)) ∧
    (∀ (db : DB) (i : Nat) (p n : String) (now : Nat) (it : Item),
      db.get_item i = some it → it.is_checked_out = false →
        Server.checkin_item db i p n now = (.error .notCheckedOut, db)) ∧
    (∀ (db : DB) (i : Nat) (p n : String) (now : Nat) (e : Err),
      (Server.checkout_item db i p n now).1 = .error e →
        (Server.checkout_item db i p n now).2 = db) ∧
    (∀ (db : DB) (i : Nat) (p n : String) (now : Nat) (e : Err),
      (Server.checkin_item db i p n now).1 = .error e →
        (Server.checkin_item db i p n now).2 = db) := by
  refine ⟨?_, fun db i p n now h => checkout_item_notFound p n now h,
    fun db i p n now it h hout => checkout_item_alreadyOut p n now h hout,
    ?_, fun db i p n now h => checkin_item_notFound p n now h,
    fun db i p n now it h hav => checkin_item_notOut p n now h hav, ?_, ?_⟩
  · intro db i p n now
    constructor
    · intro hok
      cases hg : db.get_item i with
      | none => rw [checkout_item_notFound p n now hg] at hok; cases hok
      | some it =>
        cases hout : it.is_checked_out with
        | false => exact ⟨it, rfl, hout⟩
        | true => rw [checkout_item_alreadyOut p n now hg hout] at hok; cases hok
    · rintro ⟨it, hg, hav⟩
      rw [checkout_item_success p n now hg hav]
  · intro db i p n now
    constructor
    · intro hok
      cases hg : db.get_item i with
      | none => rw [checkin_item_notFound p n now hg] at hok; cases hok
      | some it =>
        cases hout : it.is_checked_out with
        | true => exact ⟨it, rfl, hout⟩
        | false => rw [checkin_item_notOut p n now hg hout] at hok; cases hok
    · rintro ⟨it, hg, hout⟩
      rw [checkin_item_success p n now hg hout]
  · intro db i p n now e herr
    cases hg : db.get_item i with
    | none => rw [checkout_item_notFound p n now hg]
    | some it =>
      cases hout : it.is_checked_out with
      | true => rw [checkout_item_alreadyOut p n now hg hout]
      | false => rw [checkout_item_success p n now hg hout] at herr; cases herr
  · intro db i p n now e herr
    cases hg : db.get_item i with
    | none => rw [checkin_item_notFound p n now hg]
    | some it =>
      cases hout : it.is_checked_out with
      | false => rw [checkin_item_notOut p n now hg hout]
      | true => rw [checkin_item_success p n now hg hout] at herr; cases herr

/-- A concrete available item used by witnesses. -/
def exItemA : Item := { id := 1, name := "A" }

/-- A concrete store holding only `exItemA`. -/
def exDbAvail : DB := { items := [exItemA], next_item_id := 2 }

/-- `exItemA` after a checkout by Jane at time 2. -/
def exItemOut : Item :=
  { id := 1, name := "A", is_checked_out := true,
    checked_out_by := some "Jane", checked_out_date := some 2,
    last_modified_date := 2 }

/-- A concrete store holding only the checked-out `exItemOut`. -/
def exDbOut : DB := { items := [exItemOut], next_item_id := 2 }

/-- Witness for the C2 theorem: on a store with one available item,
checkout of item 1 succeeds, checkout of the missing item 2 is NotFound,
and on a store with the item checked out another checkout fails carrying
holder Jane while the store is unchanged by that failure. -/
theorem checkout_checkin_contract_witness :
    ((Server.checkout_item exDbAvail 1 "Jane" "demo" 2).1 = .ok ()) ∧
    (Server.checkout_item exDbAvail 2 "Jane" "" 2 =
      (.error .notFound, exDbAvail)) ∧
    (Server.checkout_item exDbOut 1 "Bob" "" 3 =
      (.error (.alreadyCheckedOut (some "Jane")), exDbOut)) := by
  refine ⟨?_, ?_, ?_⟩
  · exact (checkout_checkin_contract.1 exDbAvail 1 "Jane" "demo" 2).mpr
      ⟨exItemA, by decide, rfl⟩
  · exact checkout_checkin_contract.2.1 exDbAvail 2 "Jane" "" 2 (by decide)
  · exact checkout_checkin_contract.2.2.1 exDbOut 1 "Bob" "" 3 exItemOut
      (by decide) rfl

/-- After a successful conditional checkout, looking the item up again
yields the row with the checkout columns set. -/
theorem get_item_after_checkout {db : DB} {i : Nat} {it : Item}
    (p n : String) (t : Nat) (hg : db.get_item i = some it)
    (hav : it.is_checked_out = false) :
    ((db.checkout_item i p n t).2).get_item i =
      some { it with is_checked_out := true, checked_out_by := some p,
                     checked_out_date := some t, last_modified_date := t } := by
  have hany := any_available_of_get_item hg hav
  have hid := (get_item_spec hg).2
  simp only [DB.checkout_item, hany, if_true, DB.get_item]
  rw [find?_map_id_preserving (fun a => by
    by_cases hc : (a.id == i && !a.is_checked_out) = true <;> simp [hc])]
  rw [show db.items.find? (fun x => x.id == i) = some it from hg]
  simp [hid, hav]

/-- After a successful conditional checkin, looking the item up again
yields the row with the checkout columns cleared. -/
theorem get_item_after_checkin {db : DB} {i : Nat} {it : Item}
    (p n : String) (t : Nat) (hg : db.get_item i = some it)
    (hout : it.is_checked_out = true) :
    ((db.checkin_item i p n t).2).get_item i =
      some { it with is_checked_out := false, checked_out_by := none,
                     checked_out_date := none, last_modified_date := t } := by
  have hany := any_out_of_get_item hg hout
  have hid := (get_item_spec hg).2
  simp only [DB.checkin_item, hany, if_true, DB.get_item]
  rw [find?_map_id_preserving (fun a => by
    by_cases hc : (a.id == i && a.is_checked_out) = true <;> simp [hc])]
  rw [show db.items.find? (fun x => x.id == i) = some it from hg]
  simp [hid, hout]

/-- Sorting a two-element list whose first timestamp is strictly smaller
swaps the two entries. -/
theorem insertionSort_pair_lt {a b : HistoryEntry}
    (h : a.timestamp < b.timestamp) :
    List.insertionSort histDesc [a, b] = [b, a] := by
  have hnot : ¬ histDesc a b := by
    simp only [histDesc]
    omega
  simp [List.insertionSort, List.orderedInsert, hnot]

/-- C3: history bookkeeping. A successful checkout appends exactly one
checkout entry (with the fresh history id) to the ledger and a successful
checkin exactly one checkin entry; for an existing item the history
endpoint returns exactly the ledger rows of that item, sorted most recent
first, and fails with NotFound for a missing item; and in the concrete
scenario of one checkout followed by one later checkin on an item with no
prior history, the endpoint returns the two entries ordered
checkin before checkout. -/
theorem history_append_and_order :
    (∀ (db : DB) (i : Nat) (p n : String) (now : Nat) (db' : DB),
      Server.checkout_item db i p n now = (.ok (), db') →
        db'.checkout_history = db.checkout_history ++
          [{ id := db.next_history_id, item_id := i, action := "checkout",
             person_name := p, timestamp := now, notes := n }]) ∧
    (∀ (db : DB) (i : Nat) (p n : String) (now : Nat) (db' : DB),
      Server.checkin_item db i p n now = (.ok (), db') →
        db'.checkout_history = db.checkout_history ++
          [{ id := db.next_history_id, item_id := i, action := "checkin",
             person_name := p, timestamp := now, notes := n }]) ∧
    (∀ (db : DB) (i : Nat), (db.get_item i).isSome →
      Server.get_item_history db i = (.ok (db.get_item_history i), db) ∧
      List.Sorted histDesc (db.get_item_history i) ∧
      List.Perm (db.get_item_history i)
        (db.checkout_history.filter (fun e => e.item_id == i))) ∧
    (∀ (db : DB) (i : Nat), db.get_item i = none →
      Server.get_item_history db i = (.error .notFound, db)) ∧
    (∀ (db : DB) (i : Nat) (it : Item) (p1 n1 p2 n2 : String) (t1 t2 : Nat),
      db.get_item i = some it → it.is_checked_out = false →
      db.checkout_history.filter (fun e => e.item_id == i) = [] →
      t1 < t2 →
      (Server.get_item_history
          (Server.checkin_item
            (Server.checkout_item db i p1 n1 t1).2 i p2 n2 t2).2 i).1 =
        .ok [{ id := db.next_history_id + 1, item_id := i,
               action := "checkin", person_name := p2, timestamp := t2,
               notes := n2 },
             { id := db.next_history_id, item_id := i, action := "checkout",
               person_name := p1, timestamp := t1, notes := n1 }]) := by
  refine ⟨?_, ?_, ?_, ?_, ?_⟩
  · intro db i p n now db' h
    cases hg : db.get_item i with
    | none => rw [checkout_item_notFound p n now hg] at h; simp at h
    | some it =>
      cases hout : it.is_checked_out with
      | true => rw [checkout_item_alreadyOut p n now hg hout] at h; simp at h
      | false =>
        rw [checkout_item_success p n now hg hout] at h
        have hdb : db' = (db.checkout_item i p n now).2 := by
          have := congrArg Prod.snd h
          simpa using this.symm
        subst hdb
        simp [DB.checkout_item, any_available_of_get_item hg hout]
  · intro db i p n now db' h
    cases hg : db.get_item i with
    | none => rw [checkin_item_notFound p n now hg] at h; simp at h
    | some it =>
      cases hout : it.is_checked_out with
      | false => rw [checkin_item_notOut p n now hg hout] at h; simp at h
      | true =>
        rw [checkin_item_success p n now hg hout] at h
        have hdb : db' = (db.checkin_item i p n now).2 := by
          have := congrArg Prod.snd h
          simpa using this.symm
        subst hdb
        simp [DB.checkin_item, any_out_of_get_item hg hout]
  · intro db i hsome
    obtain ⟨it, hg⟩ := Option.isSome_iff_exists.mp hsome
    refine ⟨by simp [Server.get_item_history, hg], ?_, ?_⟩
    · exact List.sorted_insertionSort histDesc _
    · exact List.perm_insertionSort histDesc _
  · intro db i hg
    simp [Server.get_item_history, hg]
  · intro db i it p1 n1 p2 n2 t1 t2 hg hav hemp hlt
    rw [checkout_item_success p1 n1 t1 hg hav]
    have hg1 := get_item_after_checkout p1 n1 t1 hg hav
    rw [checkin_item_success p2 n2 t2 hg1 rfl]
    have hg2 := get_item_after_checkin p2 n2 t2 hg1 rfl
    simp only [Server.get_item_history, hg2]
    have hany1 := any_available_of_get_item hg hav
    have hany2 := any_out_of_get_item hg1 rfl
    simp only [DB.checkout_item, hany1, if_true] at hg2 hany2 ⊢
    simp only [DB.checkin_item, hany2, if_true, DB.get_item_history]
    simp only [List.filter_append, hemp, List.filter_cons, List.filter_nil,
      beq_self_eq_true, if_true, List.nil_append]
    simp only [List.singleton_append]
    rw [insertionSort_pair_lt (by simpa using hlt)]

/-- Witness for the C3 theorem: the scenario on the concrete store with
one available item and empty ledger, checked out by Jane at time 2 and
checked in at time 3: the endpoint returns [checkin, checkout]. -/
theorem history_append_and_order_witness :
    (Server.get_item_history
        (Server.checkin_item
          (Server.checkout_item exDbAvail 1 "Jane" "demo" 2).2
          1 "Jane" "returned" 3).2 1).1 =
      .ok [{ id := 2, item_id := 1, action := "checkin",
             person_name := "Jane", timestamp := 3, notes := "returned" },
           { id := 1, item_id := 1, action := "checkout",
             person_name := "Jane", timestamp := 2, notes := "demo" }] := by
  have := history_append_and_order.2.2.2.2 exDbAvail 1 exItemA
    "Jane" "demo" "Jane" "returned" 2 3 (by decide) rfl (by decide) (by decide)
  simpa using this

/-- The per-item invariant of the claim: the flag is set exactly when the
holder and the checkout timestamp are both present. -/
def itemConsistent (it : Item) : Prop :=
  it.is_checked_out = true ↔
    (it.checked_out_by ≠ none ∧ it.checked_out_date ≠ none)

/-- The invariant over the whole items table. -/
def itemsConsistent (db : DB) : Prop := ∀ it ∈ db.items, itemConsistent it

instance (it : Item) : Decidable (itemConsistent it) := by
  unfold itemConsistent
  infer_instance

instance (db : DB) : Decidable (itemsConsistent db) := by
  unfold itemsConsistent
  infer_instance

/-- Inserting a fresh item (defaults 0 / NULL / NULL) keeps the
invariant; a barcode-constraint failure leaves the store unchanged. -/
theorem itemsConsistent_add_item {db : DB} (d : ItemCreate) (now : Nat)
    (h : itemsConsistent db) : itemsConsistent (db.add_item d now).2 := by
  by_cases hb : db.insert_barcode_conflict d = true
  · intro it hit
    simp only [DB.add_item] at hit
    rw [if_pos hb] at hit
    exact h it hit
  · intro it hit
    simp only [DB.add_item] at hit
    rw [if_neg hb] at hit
    simp only [List.mem_append, List.mem_singleton] at hit
    rcases hit with hit | rfl
    · exact h it hit
    · simp [itemConsistent]

/-- The field update touches none of the three checkout columns, so it
keeps the invariant; a barcode-constraint failure leaves the store
unchanged. -/
theorem itemsConsistent_update_item {db : DB} (i : Nat) (v : UpdateValues)
    (now : Nat) (h : itemsConsistent db) :
    itemsConsistent (db.update_item i v now).2 := by
  by_cases hb : db.update_barcode_conflict i v = true
  · intro it hit
    simp only [DB.update_item] at hit
    rw [if_pos hb] at hit
    exact h it hit
  · intro it hit
    simp only [DB.update_item] at hit
    rw [if_neg hb] at hit
    simp only [List.mem_map] at hit
    obtain ⟨a, ha, rfl⟩ := hit
    have := h a ha
    by_cases hc : (a.id == i) = true <;> simpa [itemConsistent, hc] using this

/-- Deleting rows keeps the invariant. -/
theorem itemsConsistent_delete_item {db : DB} (i : Nat)
    (h : itemsConsistent db) : itemsConsistent (db.delete_item i).2 := by
  intro it hit
  exact h it (List.mem_of_mem_filter hit)

/-- The conditional checkout sets the flag, the holder and the timestamp
together, so it keeps the invariant. -/
theorem itemsConsistent_checkout_item {db : DB} (i : Nat) (p n : String)
    (now : Nat) (h : itemsConsistent db) :
    itemsConsistent (db.checkout_item i p n now).2 := by
  by_cases hc : (db.items.any (fun it => it.id == i && !it.is_checked_out))
    = true
  · intro it hit
    simp only [DB.checkout_item, hc, if_true, List.mem_map] at hit
    obtain ⟨a, ha, rfl⟩ := hit
    have := h a ha
    by_cases hca : (a.id == i && !a.is_checked_out) = true <;>
      simpa [itemConsistent, hca] using this
  · simpa [DB.checkout_item, hc] using h

/-- The conditional checkin clears the flag, the holder and the timestamp
together, so it keeps the invariant. -/
theorem itemsConsistent_checkin_item {db : DB} (i : Nat) (p n : String)
    (now : Nat) (h : itemsConsistent db) :
    itemsConsistent (db.checkin_item i p n now).2 := by
  by_cases hc : (db.items.any (fun it => it.id == i && it.is_checked_out))
    = true
  · intro it hit
    simp only [DB.checkin_item, hc, if_true, List.mem_map] at hit
    obtain ⟨a, ha, rfl⟩ := hit
    have := h a ha
    by_cases hca : (a.id == i && a.is_checked_out) = true <;>
      simpa [itemConsistent, hca] using this
  · simpa [DB.checkin_item, hc] using h

/-- Request-table writes do not touch the items table. -/
theorem itemsConsistent_create_item_request {db : DB} (rq : Nat)
    (ty nm ds : String) (ii : Option Nat) (now : Nat)
    (h : itemsConsistent db) :
    itemsConsistent (db.create_item_request rq ty nm ds ii now).2 :=
  fun it hit => h it hit

/-- The request-status write does not touch the items table. -/
theorem itemsConsistent_update_request_status {db : DB} (rid : Nat)
    (st : String) (rev : Nat) (dr : Option String) (now : Nat)
    (h : itemsConsistent db) :
    itemsConsistent (db.update_request_status rid st rev dr now).2 :=
  fun it hit => h it hit

/-- Approval side effects insert a fresh Available item or delete rows,
so they keep the invariant. -/
theorem itemsConsistent_review_side_effects {db : DB} (request : ItemRequest)
    (decision : RequestStatus) (now : Nat) (h : itemsConsistent db) :
    itemsConsistent (Server.review_side_effects db request decision now) := by
  unfold Server.review_side_effects
  repeat' split
  all_goals
    first
      | exact h
      | exact itemsConsistent_add_item _ _ h
      | exact itemsConsistent_delete_item _ h

/-- C1: every operation of the system (direct create, partial update,
checkout, checkin, delete, request submission, and request review with
its approval side effects) preserves the invariant that an item is
flagged checked out exactly when its holder and checkout timestamp are
both present; the two columns are never left partially set. -/
theorem checkout_state_never_partial (db : DB) (op : Op)
    (h : itemsConsistent db) : itemsConsistent (applyOp db op) := by
  cases op <;>
    simp only [applyOp, Server.create_item, Server.update_item,
      Server.delete_item, Server.checkout_item, Server.checkin_item,
      Server.create_request, Server.update_request_status] <;>
    repeat' split
  all_goals
    first
      | exact h
      | exact itemsConsistent_add_item _ _ h
      | exact itemsConsistent_update_item _ _ _ h
      | exact itemsConsistent_delete_item _ h
      | exact itemsConsistent_checkout_item _ _ _ _ h
      | exact itemsConsistent_checkin_item _ _ _ _ h
      | exact itemsConsistent_create_item_request _ _ _ _ _ _ h
      | exact itemsConsistent_update_request_status _ _ _ _ _ h
      | exact itemsConsistent_review_side_effects _ _ _
          (itemsConsistent_update_request_status _ _ _ _ _ h)

/-- Witness for the C1 theorem: the invariant holds on the one-item store
and still holds after a checkout operation. -/
theorem checkout_state_never_partial_witness :
    itemsConsistent exDbAvail ∧
    itemsConsistent (applyOp exDbAvail (.checkoutOp 1 "Jane" "demo" 2)) :=
  ⟨by decide,
   checkout_state_never_partial exDbAvail (.checkoutOp 1 "Jane" "demo" 2)
     (by decide)⟩

/-- A request row returned by a point lookup is in the table and matches
the key. -/
theorem get_request_spec {db : DB} {rid : Nat} {r : ItemRequest}
    (h : db.get_request_by_id rid = some r) :
    r ∈ db.item_requests ∧ r.id = rid := by
  refine ⟨List.mem_of_find?_eq_some h, ?_⟩
  have := List.find?_some h
  simpa using this

/-- The existence scan of the request-status UPDATE succeeds when the
point lookup did. -/
theorem any_of_get_request {db : DB} {rid : Nat} {r : ItemRequest}
    (h : db.get_request_by_id rid = some r) :
    db.item_requests.any (fun x => x.id == rid) = true := by
  rcases get_request_spec h with ⟨hm, hid⟩
  exact List.any_eq_true.mpr ⟨r, hm, by simpa using hid⟩

/-- The per-row effect of the request-status UPDATE. -/
def reviewWrite (rid : Nat) (st : String) (rev : Nat) (dr : Option String)
    (now : Nat) (r : ItemRequest) : ItemRequest :=
  if r.id == rid then
    { r with status := st, reviewed_by_id := some rev,
             reviewed_date := some now, denial_reason := dr }
  else r

/-- The request-status UPDATE maps `reviewWrite` over the table. -/
theorem update_request_status_requests (db : DB) (rid : Nat) (st : String)
    (rev : Nat) (dr : Option String) (now : Nat) :
    (db.update_request_status rid st rev dr now).2.item_requests =
      db.item_requests.map (reviewWrite rid st rev dr now) := rfl

/-- `reviewWrite` never changes the row id. -/
theorem reviewWrite_id (rid : Nat) (st : String) (rev : Nat)
    (dr : Option String) (now : Nat) (r : ItemRequest) :
    (reviewWrite rid st rev dr now r).id = r.id := by
  unfold reviewWrite
  split <;> rfl

/-- The item INSERT never touches the request table (on either the
success or the constraint-failure path). -/
theorem add_item_item_requests (db : DB) (d : ItemCreate) (now : Nat) :
    (db.add_item d now).2.item_requests = db.item_requests := by
  unfold DB.add_item
  split <;> rfl

/-- The item UPDATE never touches the request table (on either the
success or the constraint-failure path). -/
theorem update_item_item_requests (db : DB) (i : Nat) (v : UpdateValues)
    (now : Nat) :
    (db.update_item i v now).2.item_requests = db.item_requests := by
  unfold DB.update_item
  split <;> rfl

/-- The item UPDATE never touches the history table. -/
theorem update_item_checkout_history (db : DB) (i : Nat) (v : UpdateValues)
    (now : Nat) :
    (db.update_item i v now).2.checkout_history = db.checkout_history := by
  unfold DB.update_item
  split <;> rfl

/-- The item UPDATE never touches the users table. -/
theorem update_item_users (db : DB) (i : Nat) (v : UpdateValues)
    (now : Nat) : (db.update_item i v now).2.users = db.users := by
  unfold DB.update_item
  split <;> rfl

/-- The approval side effects never touch the request table. -/
theorem review_side_effects_requests (db : DB) (request : ItemRequest)
    (decision : RequestStatus) (now : Nat) :
    (Server.review_side_effects db request decision now).item_requests =
      db.item_requests := by
  unfold Server.review_side_effects
  repeat' split
  all_goals first
    | rfl
    | exact add_item_item_requests _ _ _

/-- In any store whose request table is the written table, the reviewed
request is found with the write applied. -/
theorem get_request_after_write {db : DB} {rid : Nat} {r : ItemRequest}
    (st : String) (rev : Nat) (dr : Option String) (now : Nat)
    (h : db.get_request_by_id rid = some r) (dbx : DB)
    (hx : dbx.item_requests =
      db.item_requests.map (reviewWrite rid st rev dr now)) :
    dbx.get_request_by_id rid = some (reviewWrite rid st rev dr now r) := by
  unfold DB.get_request_by_id
  rw [hx, find?_map_req_id_preserving (fun a => reviewWrite_id _ _ _ _ _ a)]
  rw [show db.item_requests.find? (fun x => x.id == rid) = some r from h]
  rfl

/-- The conditional checkout never touches the request table. -/
theorem checkout_item_item_requests (db : DB) (i : Nat) (p n : String)
    (t : Nat) : (db.checkout_item i p n t).2.item_requests =
      db.item_requests := by
  unfold DB.checkout_item
  split <;> rfl

/-- The conditional checkin never touches the request table. -/
theorem checkin_item_item_requests (db : DB) (i : Nat) (p n : String)
    (t : Nat) : (db.checkin_item i p n t).2.item_requests =
      db.item_requests := by
  unfold DB.checkin_item
  split <;> rfl

/-- The request row INSERTed by `create_item_request`. -/
def submittedRequest (db : DB) (rq : Nat) (rc : ItemRequestCreate)
    (now : Nat) : ItemRequest :=
  { id := db.next_request_id
    requester_id := rq
    request_type := rc.request_type.value
    item_name := rc.item_name
    description := rc.description
    item_id := rc.item_id
    status := "pending"
    created_date := now }

/-- Review handler, missing-request branch. -/
theorem review_notFound {db : DB} {rid : Nat} (u : ItemRequestUpdate)
    (rev now : Nat) (h : db.get_request_by_id rid = none) :
    Server.update_request_status db rid u rev now = (.error .notFound, db) := by
  simp [Server.update_request_status, h]

/-- Review handler, already-reviewed branch: checked before any write. -/
theorem review_alreadyReviewed {db : DB} {rid : Nat} {r : ItemRequest}
    (u : ItemRequestUpdate) (rev now : Nat)
    (hg : db.get_request_by_id rid = some r) (hp : r.status ≠ "pending") :
    Server.update_request_status db rid u rev now =
      (.error .alreadyReviewed, db) := by
  simp [Server.update_request_status, hg, hp]

/-- Review handler, missing-denial-reason branch (helper form). -/
theorem review_missingReason {db : DB} {rid : Nat} {r : ItemRequest}
    (u : ItemRequestUpdate) (rev now : Nat)
    (hg : db.get_request_by_id rid = some r) (hp : r.status = "pending")
    (hm : u.status = .denied ∧
      (u.denial_reason = none ∨ u.denial_reason = some "")) :
    Server.update_request_status db rid u rev now =
      (.error .missingReason, db) := by
  simp [Server.update_request_status, hg, hp, hm]

/-- Review handler, success branch: the write goes through, the side
effects run on the written store, and the written row is returned. -/
theorem review_success {db : DB} {rid : Nat} {request : ItemRequest}
    (u : ItemRequestUpdate) (rev now : Nat)
    (hg : db.get_request_by_id rid = some request)
    (hp : request.status = "pending")
    (hm : ¬ (u.status = .denied ∧
      (u.denial_reason = none ∨ u.denial_reason = some ""))) :
    Server.update_request_status db rid u rev now =
      (.ok (reviewWrite rid u.status.value rev u.denial_reason now request),
       Server.review_side_effects
         (db.update_request_status rid u.status.value rev
           u.denial_reason now).2 request u.status now) := by
  have hany := any_of_get_request hg
  have hfind := get_request_after_write u.status.value rev u.denial_reason now
    hg
    (Server.review_side_effects
      (db.update_request_status rid u.status.value rev
        u.denial_reason now).2 request u.status now)
    (by rw [review_side_effects_requests, update_request_status_requests])
  simp only [Server.update_request_status, hg]
  rw [if_neg (fun hc => hc hp), if_neg hm]
  rw [if_pos (show (db.update_request_status rid u.status.value rev
    u.denial_reason now).1 = true from hany)]
  rw [hfind]

/-- C4: the review state machine is one-shot. A review call on a request
whose stored status is not pending fails with the already-reviewed error
and leaves the whole store unchanged; across every operation of the
system, a stored request status only ever changes from pending, and then
only to approved or denied (under the primary-key and autoincrement
discipline of the store); and after a successful review with an approving
or denying decision, every further review call on that request fails with
the already-reviewed error. -/
theorem request_review_one_shot :
    (∀ (db : DB) (rid : Nat) (u : ItemRequestUpdate) (rev now : Nat)
       (r : ItemRequest), db.get_request_by_id rid = some r →
       r.status ≠ "pending" →
       Server.update_request_status db rid u rev now =
         (.error .alreadyReviewed, db)) ∧
    (∀ (db : DB) (op : Op),
      (db.item_requests.map (fun x => x.id)).Nodup →
      (∀ x ∈ db.item_requests, x.id < db.next_request_id) →
      ∀ r' ∈ (applyOp db op).item_requests, ∀ r ∈ db.item_requests,
        r.id = r'.id → r.status ≠ r'.status →
        r.status = "pending" ∧
          (r'.status = "approved" ∨ r'.status = "denied")) ∧
    (∀ (db : DB) (rid : Nat) (u : ItemRequestUpdate) (rev now : Nat)
       (r' : ItemRequest) (db' : DB),
      Server.update_request_status db rid u rev now = (.ok r', db') →
      u.status ≠ .pending →
      ∀ (u2 : ItemRequestUpdate) (rev2 now2 : Nat),
        (Server.update_request_status db' rid u2 rev2 now2).1 =
          .error .alreadyReviewed) := by
  refine ⟨fun db rid u rev now r hg hp =>
    review_alreadyReviewed u rev now hg hp, ?_, ?_⟩
  · intro db op hnodup hfresh r' hr' r hr hid hne
    have hcontra : r' ∈ db.item_requests → False := fun hr2 =>
      hne (congrArg ItemRequest.status
        (List.inj_on_of_nodup_map hnodup hr hr2 hid))
    cases op with
    | createItem d now =>
      have hreq : (applyOp db (Op.createItem d now)).item_requests =
          db.item_requests := by
        simp only [applyOp, Server.create_item]
        repeat' split
        all_goals first
          | rfl
          | exact add_item_item_requests _ _ _
      exact (hcontra (hreq ▸ hr')).elim
    | updateItem i u' now =>
      have hreq : (applyOp db (Op.updateItem i u' now)).item_requests =
          db.item_requests := by
        simp only [applyOp, Server.update_item]
        repeat' split
        all_goals first
          | rfl
          | exact update_item_item_requests _ _ _ _
      exact (hcontra (hreq ▸ hr')).elim
    | deleteItem i =>
      have hreq : (applyOp db (Op.deleteItem i)).item_requests =
          db.item_requests := by
        simp only [applyOp, Server.delete_item]
        repeat' split
        all_goals rfl
      exact (hcontra (hreq ▸ hr')).elim
    | checkoutOp i p n now =>
      have hreq : (applyOp db (Op.checkoutOp i p n now)).item_requests =
          db.item_requests := by
        simp only [applyOp, Server.checkout_item]
        repeat' split
        all_goals first
          | rfl
          | exact checkout_item_item_requests db i p n now
      exact (hcontra (hreq ▸ hr')).elim
    | checkinOp i p n now =>
      have hreq : (applyOp db (Op.checkinOp i p n now)).item_requests =
          db.item_requests := by
        simp only [applyOp, Server.checkin_item]
        repeat' split
        all_goals first
          | rfl
          | exact checkin_item_item_requests db i p n now
      exact (hcontra (hreq ▸ hr')).elim
    | submitRequest rq rc now =>
      simp only [applyOp, Server.create_request] at hr'
      by_cases h1 : rc.request_type = RequestType.remove_item ∧
          rc.item_id.getD 0 = 0
      · rw [if_pos h1] at hr'
        exact (hcontra hr').elim
      · rw [if_neg h1] at hr'
        by_cases h2 : rc.request_type = RequestType.remove_item ∧
            (db.get_item (rc.item_id.getD 0)).isNone
        · rw [if_pos h2] at hr'
          exact (hcontra hr').elim
        · rw [if_neg h2] at hr'
          split at hr' <;>
          · have hr2 : r' ∈ db.item_requests ++
                [submittedRequest db rq rc now] := hr'
            rcases List.mem_append.mp hr2 with hold | hnew
            · exact (hcontra hold).elim
            · have hfr := hfresh r hr
              rw [hid, List.mem_singleton.mp hnew] at hfr
              exact absurd hfr (lt_irrefl _)
    | reviewRequest rid u2 rev now =>
      cases hg : db.get_request_by_id rid with
      | none =>
        have hres := review_notFound u2 rev now hg
        have hreq : (applyOp db (Op.reviewRequest rid u2 rev now)) = db := by
          simp only [applyOp, hres]
        exact (hcontra (hreq ▸ hr')).elim
      | some request =>
        by_cases hp : request.status = "pending"
        · by_cases hm : u2.status = .denied ∧
              (u2.denial_reason = none ∨ u2.denial_reason = some "")
          · have hres := review_missingReason u2 rev now hg hp hm
            have hreq : (applyOp db (Op.reviewRequest rid u2 rev now)) = db := by
              simp only [applyOp, hres]
            exact (hcontra (hreq ▸ hr')).elim
          · have hs := review_success u2 rev now hg hp hm
            have hreq : (applyOp db (Op.reviewRequest rid u2 rev
                now)).item_requests = db.item_requests.map
                (reviewWrite rid u2.status.value rev u2.denial_reason now) := by
              simp only [applyOp, hs]
              rw [review_side_effects_requests, update_request_status_requests]
            rw [hreq] at hr'
            rcases List.mem_map.mp hr' with ⟨a, ha, hfa⟩
            have hra : r = a :=
              List.inj_on_of_nodup_map hnodup hr ha
                (by rw [hid, ← hfa, reviewWrite_id])
            subst hra
            by_cases hbeq : (r.id == rid) = true
            · have hr's : r'.status = u2.status.value := by
                rw [← hfa]
                unfold reviewWrite
                rw [if_pos hbeq]
              have hrr : r = request :=
                List.inj_on_of_nodup_map hnodup hr
                  (get_request_spec hg).1
                  (by rw [show r.id = rid by simpa using hbeq,
                    (get_request_spec hg).2])
              have hrstat : r.status = "pending" := by rw [hrr]; exact hp
              refine ⟨hrstat, ?_⟩
              cases hu : u2.status with
              | pending =>
                exact (hne (by rw [hrstat, hr's, hu]; rfl)).elim
              | approved => exact Or.inl (by rw [hr's, hu]; rfl)
              | denied => exact Or.inr (by rw [hr's, hu]; rfl)
            · have hr'r : r' = r := by
                rw [← hfa]
                unfold reviewWrite
                rw [if_neg hbeq]
              exact (hne (by rw [hr'r])).elim
        · have hres := review_alreadyReviewed u2 rev now hg hp
          have hreq : (applyOp db (Op.reviewRequest rid u2 rev now)) = db := by
            simp only [applyOp, hres]
          exact (hcontra (hreq ▸ hr')).elim
  · intro db rid u rev now r' db' hres hnp u2 rev2 now2
    cases hg : db.get_request_by_id rid with
    | none =>
      rw [review_notFound u rev now hg] at hres
      simp at hres
    | some request =>
      by_cases hp : request.status = "pending"
      · by_cases hm : u.status = .denied ∧
            (u.denial_reason = none ∨ u.denial_reason = some "")
        · rw [review_missingReason u rev now hg hp hm] at hres
          simp at hres
        · have hs := review_success u rev now hg hp hm
          rw [hs] at hres
          have hdb' : db' = Server.review_side_effects
              (db.update_request_status rid u.status.value rev
                u.denial_reason now).2 request u.status now := by
            have := congrArg Prod.snd hres
            simpa using this.symm
          have hfind := get_request_after_write u.status.value rev
            u.denial_reason now hg db'
            (by rw [hdb', review_side_effects_requests,
              update_request_status_requests])
          have hw : (reviewWrite rid u.status.value rev u.denial_reason now
              request).status = u.status.value := by
            unfold reviewWrite
            rw [if_pos (by simpa using (get_request_spec hg).2)]
          have hnp2 : (reviewWrite rid u.status.value rev u.denial_reason now
              request).status ≠ "pending" := by
            rw [hw]
            cases hu : u.status with
            | pending => exact absurd hu hnp
            | approved => simp [RequestStatus.value]
            | denied => simp [RequestStatus.value]
          rw [review_alreadyReviewed u2 rev2 now2 hfind hnp2]
      · rw [review_alreadyReviewed u rev now hg hp] at hres
        simp at hres

/-- A concrete already-approved request row. -/
def exReqApproved : ItemRequest :=
  { id := 1, requester_id := 4, request_type := "add_item",
    item_name := "X", description := "D", status := "approved",
    created_date := 3, reviewed_date := some 5, reviewed_by_id := some 9 }

/-- A concrete store holding only `exReqApproved`. -/
def exDbReviewed : DB := { item_requests := [exReqApproved],
                           next_request_id := 2 }

/-- Witness for the C4 theorem: reviewing the already-approved concrete
request fails with the already-reviewed error and changes nothing. -/
theorem request_review_one_shot_witness :
    Server.update_request_status exDbReviewed 1
        { status := .denied, denial_reason := some "no" } 9 8 =
      (.error .alreadyReviewed, exDbReviewed) :=
  request_review_one_shot.1 exDbReviewed 1
    { status := .denied, denial_reason := some "no" } 9 8 exReqApproved
    (by decide) (by decide)

/-- C6: inventory side effects of a review. Approving a pending add
request appends exactly one new item, in Available state (flag clear,
no holder, no checkout date), built only from the request name and
description and carrying no reference to the request; approving a pending
remove request deletes the target rows (item and its history), and when
the target no longer exists the review still returns the approved request
without error and the items table is unchanged; denying a pending request
changes neither items nor history. -/
theorem review_approval_side_effects :
    (∀ (db : DB) (rid : Nat) (u : ItemRequestUpdate) (rev now : Nat)
       (r : ItemRequest), db.get_request_by_id rid = some r →
      r.status = "pending" → r.request_type = "add_item" →
      u.status = .approved →
      (Server.update_request_status db rid u rev now).2.items =
        db.items ++ [{ id := db.next_item_id, name := r.item_name,
                       description := some r.description,
                       created_date := now, last_modified_date := now }] ∧
      (∃ r2, (Server.update_request_status db rid u rev now).1 = .ok r2 ∧
        r2.status = "approved")) ∧
    (∀ (db : DB) (rid : Nat) (u : ItemRequestUpdate) (rev now : Nat)
       (r : ItemRequest) (t : Nat), db.get_request_by_id rid = some r →
      r.status = "pending" → r.request_type = "remove_item" →
      u.status = .approved → r.item_id = some t → t ≠ 0 →
      (Server.update_request_status db rid u rev now).2.items =
        db.items.filter (fun it => !(it.id == t)) ∧
      (Server.update_request_status db rid u rev now).2.checkout_history =
        db.checkout_history.filter (fun e => !(e.item_id == t)) ∧
      (∃ r2, (Server.update_request_status db rid u rev now).1 = .ok r2 ∧
        r2.status = "approved")) ∧
    (∀ (db : DB) (rid : Nat) (u : ItemRequestUpdate) (rev now : Nat)
       (r : ItemRequest) (t : Nat), db.get_request_by_id rid = some r →
      r.status = "pending" → r.request_type = "remove_item" →
      u.status = .approved → r.item_id = some t → t ≠ 0 →
      db.get_item t = none →
      (Server.update_request_status db rid u rev now).2.items = db.items ∧
      (∃ r2, (Server.update_request_status db rid u rev now).1 = .ok r2 ∧
        r2.status = "approved")) ∧
    (∀ (db : DB) (rid : Nat) (u : ItemRequestUpdate) (rev now : Nat)
       (r : ItemRequest) (dr : String), db.get_request_by_id rid = some r →
      r.status = "pending" → u.status = .denied →
      u.denial_reason = some dr → dr ≠ "" →
      (Server.update_request_status db rid u rev now).2.items = db.items ∧
      (Server.update_request_status db rid u rev now).2.checkout_history =
        db.checkout_history ∧
      (∃ r2, (Server.update_request_status db rid u rev now).1 = .ok r2 ∧
        r2.status = "denied")) := by
  have hremove : ∀ (db : DB) (rid : Nat) (u : ItemRequestUpdate)
      (rev now : Nat) (r : ItemRequest) (t : Nat),
      db.get_request_by_id rid = some r →
      r.status = "pending" → r.request_type = "remove_item" →
      u.status = .approved → r.item_id = some t → t ≠ 0 →
      (Server.update_request_status db rid u rev now).2.items =
        db.items.filter (fun it => !(it.id == t)) ∧
      (Server.update_request_status db rid u rev now).2.checkout_history =
        db.checkout_history.filter (fun e => !(e.item_id == t)) ∧
      (∃ r2, (Server.update_request_status db rid u rev now).1 = .ok r2 ∧
        r2.status = "approved") := by
    intro db rid u rev now r t hg hp hty ha hit ht
    have hm : ¬ (u.status = .denied ∧
        (u.denial_reason = none ∨ u.denial_reason = some "")) := by
      rintro ⟨hd, _⟩
      rw [ha] at hd
      cases hd
    have hs := review_success u rev now hg hp hm
    have hc1 : ¬ (u.status = RequestStatus.approved ∧
        r.request_type = "add_item") := by
      rintro ⟨_, h2⟩
      rw [hty] at h2
      exact absurd h2 (by decide)
    have hc2 : u.status = RequestStatus.approved ∧
        r.request_type = "remove_item" := ⟨ha, hty⟩
    have hti : r.item_id.getD 0 ≠ 0 := by
      rw [hit]
      simpa using ht
    refine ⟨?_, ?_, ?_⟩
    · rw [hs]
      simp only [Server.review_side_effects]
      rw [if_neg hc1, if_pos hc2, if_pos hti, hit]
      rfl
    · rw [hs]
      simp only [Server.review_side_effects]
      rw [if_neg hc1, if_pos hc2, if_pos hti, hit]
      rfl
    · refine ⟨reviewWrite rid u.status.value rev u.denial_reason now r,
        by rw [hs], ?_⟩
      unfold reviewWrite
      rw [if_pos (by simpa using (get_request_spec hg).2), ha]
      rfl
  refine ⟨?_, hremove, ?_, ?_⟩
  · intro db rid u rev now r hg hp hty ha
    have hm : ¬ (u.status = .denied ∧
        (u.denial_reason = none ∨ u.denial_reason = some "")) := by
      rintro ⟨hd, _⟩
      rw [ha] at hd
      cases hd
    have hs := review_success u rev now hg hp hm
    have hc1 : u.status = RequestStatus.approved ∧
        r.request_type = "add_item" := ⟨ha, hty⟩
    refine ⟨?_, ?_⟩
    · rw [hs]
      simp only [Server.review_side_effects]
      rw [if_pos hc1]
      rfl
    · refine ⟨reviewWrite rid u.status.value rev u.denial_reason now r,
        by rw [hs], ?_⟩
      unfold reviewWrite
      rw [if_pos (by simpa using (get_request_spec hg).2), ha]
      rfl
  · intro db rid u rev now r t hg hp hty ha hit ht hmiss
    obtain ⟨hitems, _, hok⟩ := hremove db rid u rev now r t hg hp hty ha hit ht
    refine ⟨?_, hok⟩
    rw [hitems]
    exact List.filter_eq_self.mpr
      (fun a haa => by simpa using get_item_none hmiss a haa)
  · intro db rid u rev now r dr hg hp hd hdr hne
    have hm : ¬ (u.status = .denied ∧
        (u.denial_reason = none ∨ u.denial_reason = some "")) := by
      rintro ⟨_, hfal⟩
      rw [hdr] at hfal
      rcases hfal with h | h
      · cases h
      · exact hne (by injection h)
    have hs := review_success u rev now hg hp hm
    have hc1 : ¬ (u.status = RequestStatus.approved ∧
        r.request_type = "add_item") := by
      rintro ⟨h1, _⟩
      rw [hd] at h1
      cases h1
    have hc2 : ¬ (u.status = RequestStatus.approved ∧
        r.request_type = "remove_item") := by
      rintro ⟨h1, _⟩
      rw [hd] at h1
      cases h1
    refine ⟨?_, ?_, ?_⟩
    · rw [hs]
      simp only [Server.review_side_effects]
      rw [if_neg hc1, if_neg hc2]
      rfl
    · rw [hs]
      simp only [Server.review_side_effects]
      rw [if_neg hc1, if_neg hc2]
      rfl
    · refine ⟨reviewWrite rid u.status.value rev u.denial_reason now r,
        by rw [hs], ?_⟩
      unfold reviewWrite
      rw [if_pos (by simpa using (get_request_spec hg).2), hd]
      rfl

/-- A concrete pending add request row. -/
def exReqPendingAdd : ItemRequest :=
  { id := 1, requester_id := 4, request_type := "add_item",
    item_name := "X", description := "D", created_date := 3 }

/-- A concrete store holding only `exReqPendingAdd`. -/
def exDbPendingAdd : DB := { item_requests := [exReqPendingAdd],
                             next_request_id := 2 }

/-- Witness for the C6 theorem: approving the concrete pending add
request appends exactly the one new Available item built from the request
fields. -/
theorem review_approval_side_effects_witness :
    (Server.update_request_status exDbPendingAdd 1
        { status := .approved } 9 6).2.items =
      [{ id := 1, name := "X", description := some "D",
         created_date := 6, last_modified_date := 6 }] :=
  (review_approval_side_effects.1 exDbPendingAdd 1
    { status := .approved } 9 6 exReqPendingAdd
    (by decide) rfl rfl rfl).1

/-- After the field UPDATE (when no barcode constraint fires), looking
the item up again yields the row with the eight written fields and the
refreshed timestamp, everything else untouched. -/
theorem get_item_after_update {db : DB} {i : Nat} {existing : Item}
    (v : UpdateValues) (now : Nat) (hg : db.get_item i = some existing)
    (hnc : db.update_barcode_conflict i v = false) :
    ((db.update_item i v now).2).get_item i =
      some { existing with
             name := v.name, description := v.description,
             category := v.category, barcode := v.barcode,
             serial_number := v.serial_number,
             storage_location := v.storage_location,
             image_url := v.image_url, notes := v.notes,
             last_modified_date := now } := by
  have hid := (get_item_spec hg).2
  simp only [DB.update_item]
  rw [if_neg (by simp [hnc])]
  simp only [DB.get_item]
  rw [find?_map_id_preserving (fun a => by
    by_cases hc : (a.id == i) = true <;> simp [hc])]
  rw [show db.items.find? (fun x => x.id == i) = some existing from hg]
  simp [hid]

/-- The merge of `overlay`: a provided field wins, an absent field keeps
the stored value (the merge step of the update handler). -/
def overlay (provided existing : Option String) : Option String :=
  match provided with
  | some v => some v
  | none => existing

/-- The item row as returned by the update handler on the non-empty path:
the stored row overwritten by the merged values with the timestamp
refreshed. -/
def mergedItem (existing : Item) (u : ItemUpdate) (now : Nat) : Item :=
  { existing with
    name := (Server.mergeValues existing u).name
    description := (Server.mergeValues existing u).description
    category := (Server.mergeValues existing u).category
    barcode := (Server.mergeValues existing u).barcode
    serial_number := (Server.mergeValues existing u).serial_number
    storage_location := (Server.mergeValues existing u).storage_location
    image_url := (Server.mergeValues existing u).image_url
    notes := (Server.mergeValues existing u).notes
    last_modified_date := now }

/-- C7 counterexample: on the concrete store with one item whose
last-modified timestamp is 0, an update providing no fields at all
returns the item and the store entirely unchanged at call time 5: the
last-modified timestamp is not refreshed, contradicting the claim that
every update of an existing item refreshes it. -/
theorem update_empty_fields_counterexample :
    Server.update_item exDbAvail 1 ({} : ItemUpdate) 5 =
      (.ok exItemA, exDbAvail) ∧
    exItemA.last_modified_date = 0 ∧ (0 : Nat) ≠ 5 :=
  ⟨rfl, rfl, by decide⟩

/-- C7 amended: update of a missing item fails with NotFound and changes
nothing; update of an existing item with an empty field set returns the
stored row with the whole store (timestamp included) unchanged; update of
an existing item with at least one provided field whose merged barcode
does not collide with that of a different row returns the row whose
eight data fields are the provided values overlaid on the stored ones,
whose last-modified timestamp is the call time, and whose id, creation
timestamp and three checkout fields keep their stored values, while the
history, user and request tables are untouched; and an update whose
merged barcode duplicates a different row's barcode fails with the
UNIQUE-constraint error and leaves the whole store, the timestamp
included, unchanged. -/
theorem update_item_amended :
    (∀ (db : DB) (i : Nat) (u : ItemUpdate) (now : Nat),
      db.get_item i = none →
        Server.update_item db i u now = (.error .notFound, db)) ∧
    (∀ (db : DB) (i : Nat) (now : Nat) (existing : Item),
      db.get_item i = some existing →
        Server.update_item db i ({} : ItemUpdate) now = (.ok existing, db)) ∧
    (∀ (db : DB) (i : Nat) (u : ItemUpdate) (now : Nat) (existing : Item),
      db.get_item i = some existing → u ≠ ({} : ItemUpdate) →
      db.update_barcode_conflict i (Server.mergeValues existing u) = false →
      Server.update_item db i u now =
        (.ok (mergedItem existing u now),
         (db.update_item i (Server.mergeValues existing u) now).2) ∧
      (mergedItem existing u now).name = u.name.getD existing.name ∧
      (mergedItem existing u now).description =
        overlay u.description existing.description ∧
      (mergedItem existing u now).category =
        overlay u.category existing.category ∧
      (mergedItem existing u now).barcode =
        overlay u.barcode existing.barcode ∧
      (mergedItem existing u now).serial_number =
        overlay u.serial_number existing.serial_number ∧
      (mergedItem existing u now).storage_location =
        overlay u.storage_location existing.storage_location ∧
      (mergedItem existing u now).image_url =
        overlay u.image_url existing.image_url ∧
      (mergedItem existing u now).notes = overlay u.notes existing.notes ∧
      (mergedItem existing u now).last_modified_date = now ∧
      (mergedItem existing u now).is_checked_out = existing.is_checked_out ∧
      (mergedItem existing u now).checked_out_by = existing.checked_out_by ∧
      (mergedItem existing u now).checked_out_date =
        existing.checked_out_date ∧
      (mergedItem existing u now).id = existing.id ∧
      (mergedItem existing u now).created_date = existing.created_date ∧
      (db.update_item i (Server.mergeValues existing u) now).2.checkout_history
        = db.checkout_history ∧
      (db.update_item i (Server.mergeValues existing u) now).2.users
        = db.users ∧
      (db.update_item i (Server.mergeValues existing u) now).2.item_requests
        = db.item_requests) ∧
    (∀ (db : DB) (i : Nat) (u : ItemUpdate) (now : Nat) (existing : Item),
      db.get_item i = some existing → u ≠ ({} : ItemUpdate) →
      db.update_barcode_conflict i (Server.mergeValues existing u) = true →
      Server.update_item db i u now =
        (.error (.integrityError "UNIQUE constraint failed: items.barcode"),
         db)) := by
  refine ⟨?_, ?_, ?_, ?_⟩
  · intro db i u now h
    simp [Server.update_item, h]
  · intro db i now existing hg
    simp [Server.update_item, hg]
  · intro db i u now existing hg hne hnc
    have hany : db.items.any (fun x => x.id == i) = true := any_of_get_item hg
    have h1 : (db.update_item i (Server.mergeValues existing u) now).1 =
        .ok true := by
      simp only [DB.update_item]
      rw [if_neg (by simp [hnc])]
      simp [hany]
    have hupd := get_item_after_update (Server.mergeValues existing u) now
      hg hnc
    refine ⟨?_, rfl, rfl, rfl, rfl, rfl, rfl, rfl, rfl, rfl, rfl, rfl, rfl,
      rfl, rfl, update_item_checkout_history _ _ _ _,
      update_item_users _ _ _ _, update_item_item_requests _ _ _ _⟩
    simp only [Server.update_item, hg]
    rw [if_neg hne]
    simp only [h1, hupd]
    rfl
  · intro db i u now existing hg hne hc
    have h1 : db.update_item i (Server.mergeValues existing u) now =
        (.error "UNIQUE constraint failed: items.barcode", db) := by
      simp only [DB.update_item]
      rw [if_pos hc]
    simp only [Server.update_item, hg]
    rw [if_neg hne]
    simp only [h1]

/-- A concrete item with barcode b1. -/
def exItemB1 : Item := { id := 1, name := "A", barcode := some "b1" }

/-- A concrete item with barcode b2. -/
def exItemB2 : Item := { id := 2, name := "B", barcode := some "b2" }

/-- A concrete store with two barcoded items. -/
def exDbBarcodes : DB := { items := [exItemB1, exItemB2], next_item_id := 3 }

/-- Witness for the C7 amended theorem: the four cases at concrete
inputs — missing item, empty field set, a one-field update whose result
is the merged row, and an update whose barcode collides with the other
row's and is rejected with the store unchanged. -/
theorem update_item_amended_witness :
    (Server.update_item exDbAvail 3 ({} : ItemUpdate) 9 =
      (.error .notFound, exDbAvail)) ∧
    (Server.update_item exDbAvail 1 ({} : ItemUpdate) 9 =
      (.ok exItemA, exDbAvail)) ∧
    (Server.update_item exDbAvail 1 { category := some "c" } 9 =
      (.ok (mergedItem exItemA { category := some "c" } 9),
       (exDbAvail.update_item 1
         (Server.mergeValues exItemA { category := some "c" }) 9).2)) ∧
    (Server.update_item exDbBarcodes 1 { barcode := some "b2" } 9 =
      (.error (.integrityError "UNIQUE constraint failed: items.barcode"),
       exDbBarcodes)) :=
  ⟨update_item_amended.1 exDbAvail 3 ({} : ItemUpdate) 9 (by decide),
   update_item_amended.2.1 exDbAvail 1 9 exItemA (by decide),
   (update_item_amended.2.2.1 exDbAvail 1 { category := some "c" } 9 exItemA
     (by decide) (by decide) (by decide)).1,
   update_item_amended.2.2.2 exDbBarcodes 1 { barcode := some "b2" } 9
     exItemB1 (by decide) (by decide) (by decide)⟩

/-- C8 counterexample: on the concrete store with item 1, a submit of an
add request carrying target item id 1 is accepted and stored with that
target (the claim requires the target to be absent for add requests),
and a submit of a remove request carrying target item id 0 — a target
referencing no existing item — fails with the required-target error
rather than NotFound. -/
theorem submit_validation_counterexample :
    ((Server.create_request exDbAvail 9
        { request_type := .add_item, item_name := "X",
          description := "D", item_id := some 1 } 7).1 =
      .ok (submittedRequest exDbAvail 9
        { request_type := .add_item, item_name := "X",
          description := "D", item_id := some 1 } 7)) ∧
    ((submittedRequest exDbAvail 9
        { request_type := .add_item, item_name := "X",
          description := "D", item_id := some 1 } 7).item_id = some 1) ∧
    (Server.create_request exDbAvail 9
        { request_type := .remove_item, item_name := "Y",
          description := "D", item_id := some 0 } 7 =
      (.error .itemIdRequired, exDbAvail)) :=
  ⟨rfl, rfl, rfl⟩

/-- C8 amended: a remove request whose target id is absent or 0 is
rejected as requiring a target; a remove request whose nonzero target id
references no existing item fails with NotFound; in every other case —
in particular every add request, whatever its target field holds — the
request is accepted, stored exactly as submitted (the target id is passed
through, not validated or stripped for add requests) with status pending
and the fresh request id, under the autoincrement discipline of the
store. -/
theorem submit_request_amended :
    (∀ (db : DB) (rq : Nat) (rc : ItemRequestCreate) (now : Nat),
      rc.request_type = .remove_item →
      (rc.item_id = none ∨ rc.item_id = some 0) →
      Server.create_request db rq rc now = (.error .itemIdRequired, db)) ∧
    (∀ (db : DB) (rq : Nat) (rc : ItemRequestCreate) (now t : Nat),
      rc.request_type = .remove_item → rc.item_id = some t → t ≠ 0 →
      db.get_item t = none →
      Server.create_request db rq rc now = (.error .notFound, db)) ∧
    (∀ (db : DB) (rq : Nat) (rc : ItemRequestCreate) (now : Nat),
      (∀ x ∈ db.item_requests, x.id < db.next_request_id) →
      (rc.request_type = .add_item ∨
        (∃ t, rc.item_id = some t ∧ t ≠ 0 ∧ (db.get_item t).isSome)) →
      Server.create_request db rq rc now =
        (.ok (submittedRequest db rq rc now),
         { db with
           item_requests := db.item_requests ++ [submittedRequest db rq rc now]
           next_request_id := db.next_request_id + 1 }) ∧
      (submittedRequest db rq rc now).status = "pending" ∧
      (submittedRequest db rq rc now).item_id = rc.item_id) := by
  refine ⟨?_, ?_, ?_⟩
  · intro db rq rc now hty hmiss
    have h1 : rc.request_type = RequestType.remove_item ∧
        rc.item_id.getD 0 = 0 := by
      refine ⟨hty, ?_⟩
      rcases hmiss with h | h <;> simp [h]
    simp only [Server.create_request]
    rw [if_pos h1]
  · intro db rq rc now t hty hit ht hmiss
    have h1 : ¬ (rc.request_type = RequestType.remove_item ∧
        rc.item_id.getD 0 = 0) := by
      rintro ⟨_, h0⟩
      rw [hit] at h0
      exact ht (by simpa using h0)
    have h2 : rc.request_type = RequestType.remove_item ∧
        (db.get_item (rc.item_id.getD 0)).isNone := by
      refine ⟨hty, ?_⟩
      rw [hit]
      simp [hmiss]
    simp only [Server.create_request]
    rw [if_neg h1, if_pos h2]
  · intro db rq rc now hfresh hok
    have h1 : ¬ (rc.request_type = RequestType.remove_item ∧
        rc.item_id.getD 0 = 0) := by
      rintro ⟨hty, h0⟩
      rcases hok with h | ⟨t, hit, ht, _⟩
      · rw [h] at hty
        cases hty
      · rw [hit] at h0
        exact ht (by simpa using h0)
    have h2 : ¬ (rc.request_type = RequestType.remove_item ∧
        (db.get_item (rc.item_id.getD 0)).isNone) := by
      rintro ⟨hty, h0⟩
      rcases hok with h | ⟨t, hit, ht, hsome⟩
      · rw [h] at hty
        cases hty
      · rw [hit] at h0
        simp only [Option.getD] at h0
        rw [Option.isNone_iff_eq_none] at h0
        rw [h0] at hsome
        cases hsome
    have hfind : (db.create_item_request rq rc.request_type.value
        rc.item_name rc.description rc.item_id now).2.get_request_by_id
        (db.create_item_request rq rc.request_type.value
          rc.item_name rc.description rc.item_id now).1 =
        some (submittedRequest db rq rc now) := by
      show (db.item_requests ++ [submittedRequest db rq rc now]).find?
        (fun x => x.id == db.next_request_id) = _
      rw [List.find?_append]
      have hnone : db.item_requests.find?
          (fun x => x.id == db.next_request_id) = none := by
        rw [List.find?_eq_none]
        intro a ha
        have := hfresh a ha
        simp
        omega
      rw [hnone]
      simp [submittedRequest]
    refine ⟨?_, rfl, rfl⟩
    simp only [Server.create_request]
    rw [if_neg h1, if_neg h2, hfind]
    rfl

/-- Witness for the C8 amended theorem: the three cases at concrete
inputs — remove submit with absent target, remove submit with a dangling
nonzero target, and a plain add submit that is stored pending. -/
theorem submit_request_amended_witness :
    (Server.create_request exDbAvail 9
        { request_type := .remove_item, item_name := "Y",
          description := "D" } 7 = (.error .itemIdRequired, exDbAvail)) ∧
    (Server.create_request exDbAvail 9
        { request_type := .remove_item, item_name := "Y",
          description := "D", item_id := some 5 } 7 =
      (.error .notFound, exDbAvail)) ∧
    (Server.create_request exDbAvail 9
        { request_type := .add_item, item_name := "X",
          description := "D" } 7 =
      (.ok (submittedRequest exDbAvail 9
          { request_type := .add_item, item_name := "X",
            description := "D" } 7),
       { exDbAvail with
         item_requests := [submittedRequest exDbAvail 9
           { request_type := .add_item, item_name := "X",
             description := "D" } 7]
         next_request_id := 2 })) :=
  ⟨submit_request_amended.1 exDbAvail 9
     { request_type := .remove_item, item_name := "Y",
       description := "D" } 7 rfl (Or.inl rfl),
   submit_request_amended.2.1 exDbAvail 9
     { request_type := .remove_item, item_name := "Y",
       description := "D", item_id := some 5 } 7 5 rfl rfl
     (by decide) (by decide),
   (submit_request_amended.2.2 exDbAvail 9
     { request_type := .add_item, item_name := "X",
       description := "D" } 7 (by decide) (Or.inl rfl)).1⟩

end KSSM
